import Mathlib

/-!
Shallow embedding of the credential-verification and session-lifecycle
subsystem of the Express_ProjectRandom repository: the in-memory OTP ledger
and verification-token ledger (`src/routes/auth.js`, forgot-password router),
the JWT guards (`requireUserJWT`, `requireAdmin`), the session-version
operations (logout / force-logout), and the admin login password check.

JS `Map`s are modelled as association lists, wall-clock times as `Int`
milliseconds, the bcrypt collaborator as explicit `hash`/`compare` function
parameters, database lookups as explicit `Bool`/`Option` parameters, and the
random OTP / token values as explicit inputs.
-/

namespace ExpressRandom

/-- Association-list model of a JS `Map` lookup (`Map.get`). -/
def mapGet {κ α : Type} [DecidableEq κ] : List (κ × α) → κ → Option α
  | [], _ => none
  | (k1, v) :: t, k => if k1 = k then some v else mapGet t k

/-- Model of `Map.delete`: removes every binding of the key. -/
def mapDel {κ α : Type} [DecidableEq κ] : List (κ × α) → κ → List (κ × α)
  | [], _ => []
  | (k1, v) :: t, k => if k1 = k then mapDel t k else (k1, v) :: mapDel t k

/-- Model of `Map.set`: binds the key to the value, replacing any old binding. -/
def mapSet {κ α : Type} [DecidableEq κ] (s : List (κ × α)) (k : κ) (v : α) : List (κ × α) :=
  (k, v) :: mapDel s k

/-- Whitespace for the purposes of `String.prototype.trim` and the regex
class `\s` (restricted to the ASCII whitespace the repository's data uses). -/
def isSpaceChar (c : Char) : Bool := c.isWhitespace

/-- Drop leading and trailing whitespace from a character list. -/
def trimChars (s : List Char) : List Char :=
  (((s.dropWhile isSpaceChar).reverse).dropWhile isSpaceChar).reverse

/-- JS `String.prototype.trim`, modelled structurally over the characters. -/
def jsTrim (s : String) : String := String.mk (trimChars s.data)

/-- ASCII lowercasing of one character (JS `toLowerCase` on this data). -/
def lowerChar (c : Char) : Char :=
  if 'A' ≤ c ∧ c ≤ 'Z' then Char.ofNat (c.toNat + 32) else c

/-- JS `String.prototype.toLowerCase`, modelled structurally. -/
def jsToLower (s : String) : String := String.mk (s.data.map lowerChar)

/-- The number of characters of a string (JS `.length` on this data). -/
def strLen (s : String) : Nat := s.data.length

/-- Whether `pre` is an initial segment of `s` (JS `String.prototype.startsWith`). -/
def listIsInit : List Char → List Char → Bool
  | [], _ => true
  | _ :: _, [] => false
  | a :: as, b :: bs => (a == b) && listIsInit as bs

/-- JS `String.prototype.startsWith`. -/
def strStartsWith (s pre : String) : Bool := listIsInit pre.data s.data

/-- JS `String.prototype.slice(n)` for a nonnegative index. -/
def strDrop (s : String) (n : Nat) : String := String.mk (s.data.drop n)

/-- `normalizeEmail` from `auth.js`: trim and lowercase. -/
def normalizeEmail (email : String) : String := jsToLower (jsTrim email)

/-- A character admitted by the regex class `[^\s@]`. -/
def isEmailChar (c : Char) : Bool := (! isSpaceChar c) && (! (c == '@'))

/-- `isValidEmail` from `auth.js`: the regex
`^[^\s@]+@[^\s@]+\.[^\s@]+$` applied to the trimmed string.  It matches
exactly when the string splits as nonempty local part, one `@`, and a domain
with no whitespace or `@` containing a dot that is neither its first nor its
last character. -/
def isValidEmail (email : String) : Bool :=
  let s := trimChars email.data
  let locPart := s.takeWhile (fun c => ! (c == '@'))
  let rest := s.dropWhile (fun c => ! (c == '@'))
  match rest with
  | [] => false
  | _ :: domain =>
    (! locPart.isEmpty) && locPart.all isEmailChar &&
    (! domain.isEmpty) && domain.all isEmailChar &&
    ((domain.drop 1).dropLast.contains '.')

/-- All characters are ASCII digits. -/
def isDigits (s : List Char) : Bool := s.all (fun c => c.isDigit)

/-- `isValidMobile10` from `auth.js`: regex `^[0-9]{10}$` on the trimmed string. -/
def isValidMobile10 (m : String) : Bool :=
  ((trimChars m.data).length == 10) && isDigits (trimChars m.data)

/-- `isValidPincode6OrEmpty` from `auth.js`: falsy (empty) pincode passes,
otherwise the trimmed string must be exactly six digits. -/
def isValidPincode6OrEmpty (p : String) : Bool :=
  (p == "") || (((trimChars p.data).length == 6) && isDigits (trimChars p.data))

/-- The regex `^[0-9]{6}$` used for the submitted OTP. -/
def isOtp6 (otp : String) : Bool := (strLen otp == 6) && isDigits otp.data

/-- `OTP_TTL_MS = 10 * 60 * 1000` from `auth.js`. -/
def OTP_TTL_MS : Int := 10 * 60 * 1000

/-- `MAX_OTP_ATTEMPTS = 5` from `auth.js`. -/
def MAX_OTP_ATTEMPTS : Nat := 5

/-- `OTP_RESEND_COOLDOWN_MS = 30 * 1000` from `auth.js`. -/
def OTP_RESEND_COOLDOWN_MS : Int := 30 * 1000

/-- The 15-minute validity window given to a fresh `verify_token`. -/
def VERIFY_TOKEN_TTL_MS : Int := 15 * 60 * 1000

/-- An entry of `otpStoreByEmail`: `{ otpHash, expiresAt, attempts, lastSentAt }`. -/
structure OtpRec where
  otpHash : String
  expiresAt : Int
  attempts : Nat
  lastSentAt : Int
deriving DecidableEq

/-- An entry of `verifiedEmailTokenStore`: `{ email, expiresAt }`. -/
structure VerifyTokenRec where
  email : String
  expiresAt : Int
deriving DecidableEq

/-- `otpStoreByEmail`: email -> OTP challenge. -/
abbrev OtpStore := List (String × OtpRec)

/-- `verifiedEmailTokenStore`: verify_token -> binding. -/
abbrev TokStore := List (String × VerifyTokenRec)

/-- Outcomes of `POST /send-otp` (HTTP status + message collapsed to a kind). -/
inductive SendOtpRes where
  | validEmailRequired
  | alreadyRegistered
  | rateLimited
  | otpSent
  | serverError
deriving DecidableEq

/-- The resend-cooldown test of `POST /send-otp`:
`prev?.lastSentAt && Date.now() - prev.lastSentAt < OTP_RESEND_COOLDOWN_MS`. -/
def cooldownActive (store : OtpStore) (email : String) (now : Int) : Bool :=
  match mapGet store email with
  | some prev =>
      decide (prev.lastSentAt ≠ 0) && decide (now - prev.lastSentAt < OTP_RESEND_COOLDOWN_MS)
  | none => false

/-- `POST /send-otp` from `auth.js`.  `registered` is the result of the
`SELECT id FROM register_random WHERE email_address=$1` duplicate check,
`dispatchOk` tells whether `sendOTP` (the Mailjet dispatch) resolves or
throws, `hash` is `bcrypt.hash`, and `otp` is the value drawn by
`generateOtp6()`.  Note that the ledger write happens before the dispatch,
and a dispatch failure is caught and surfaced as the 500 response. -/
def sendOtp (registered dispatchOk : Bool) (hash : String → String)
    (store : OtpStore) (now : Int) (emailRaw otp : String) : SendOtpRes × OtpStore :=
  let email := normalizeEmail emailRaw
  if email = "" ∨ isValidEmail email = false then (SendOtpRes.validEmailRequired, store)
  else if registered then (SendOtpRes.alreadyRegistered, store)
  else if cooldownActive store email now then (SendOtpRes.rateLimited, store)
  else
    let fresh : OtpRec :=
      { otpHash := hash otp, expiresAt := now + OTP_TTL_MS, attempts := 0, lastSentAt := now }
    let store2 := mapSet store email fresh
    if dispatchOk then (SendOtpRes.otpSent, store2) else (SendOtpRes.serverError, store2)

/-- Outcomes of `POST /verify-otp`. -/
inductive VerifyOtpRes where
  | validEmailRequired
  | validOtpRequired
  | notFound
  | expired
  | tooManyAttempts
  | invalidCode
  | verified (verify_token : String)
deriving DecidableEq

/-- `POST /verify-otp` from `auth.js`.  `compare` is `bcrypt.compare` and
`newToken` is the value drawn by `makeVerifyToken()`.  Returns the response
kind together with the resulting OTP store and verify-token store. -/
def verifyOtp (compare : String → String → Bool) (store : OtpStore) (vstore : TokStore)
    (now : Int) (emailRaw otpRaw newToken : String) : VerifyOtpRes × OtpStore × TokStore :=
  let email := normalizeEmail emailRaw
  let otp := jsTrim otpRaw
  if email = "" ∨ isValidEmail email = false then (VerifyOtpRes.validEmailRequired, store, vstore)
  else if isOtp6 otp = false then (VerifyOtpRes.validOtpRequired, store, vstore)
  else
    match mapGet store email with
    | none => (VerifyOtpRes.notFound, store, vstore)
    | some chal =>
      if chal.expiresAt < now then (VerifyOtpRes.expired, mapDel store email, vstore)
      else if MAX_OTP_ATTEMPTS ≤ chal.attempts then
        (VerifyOtpRes.tooManyAttempts, mapDel store email, vstore)
      else
        let chal2 : OtpRec := { chal with attempts := chal.attempts + 1 }
        let store2 := mapSet store email chal2
        if compare otp chal.otpHash = false then (VerifyOtpRes.invalidCode, store2, vstore)
        else
          (VerifyOtpRes.verified newToken, mapDel store2 email,
            mapSet vstore newToken { email := email, expiresAt := now + VERIFY_TOKEN_TTL_MS })

/-- Outcomes of `POST /register`. -/
inductive RegisterRes where
  | requiredMissing
  | invalidMobile
  | invalidEmailAddr
  | invalidPincode
  | verificationRequired
  | invalidVerifyToken
  | duplicate
  | registered
deriving DecidableEq

/-- `POST /register` from `auth.js` (the token-consuming control flow).
`dup` is the result of the duplicate email/mobile `SELECT`.  The stored
token is checked with the collapsed condition
`!tokenRec || Date.now() > tokenRec.expiresAt || tokenRec.email !== email`,
which does not delete an expired token; the token is deleted only after the
`INSERT` succeeds. -/
def register (dup : Bool) (vstore : TokStore) (now : Int)
    (first_name last_name mobile_number email_address password pincode verify_token : String) :
    RegisterRes × TokStore :=
  let email := normalizeEmail email_address
  if first_name = "" ∨ last_name = "" ∨ mobile_number = "" ∨ email = "" ∨ password = "" then
    (RegisterRes.requiredMissing, vstore)
  else if isValidMobile10 mobile_number = false then (RegisterRes.invalidMobile, vstore)
  else if isValidEmail email = false then (RegisterRes.invalidEmailAddr, vstore)
  else if isValidPincode6OrEmpty pincode = false then (RegisterRes.invalidPincode, vstore)
  else if verify_token = "" then (RegisterRes.verificationRequired, vstore)
  else
    match mapGet vstore verify_token with
    | none => (RegisterRes.invalidVerifyToken, vstore)
    | some tokenRec =>
      if tokenRec.expiresAt < now ∨ tokenRec.email ≠ email then
        (RegisterRes.invalidVerifyToken, vstore)
      else if dup then (RegisterRes.duplicate, vstore)
      else (RegisterRes.registered, mapDel vstore verify_token)

/-- Outcomes of `POST /forgot/reset-password`. -/
inductive ResetRes where
  | validEmailRequired
  | weakPassword
  | tokenRequired
  | invalidToken
  | tokenExpired
  | tokenMismatch
  | emailNotFound
  | passwordUpdated
deriving DecidableEq

/-- `POST /forgot/reset-password` from the forgot-password router.
`userExists` is the result of the `SELECT id FROM register_random` lookup.
Unlike `register`, an expired token is deleted and reported distinctly. -/
def resetPassword (userExists : Bool) (vstore : TokStore) (now : Int)
    (email_address new_password verify_token : String) : ResetRes × TokStore :=
  let email := normalizeEmail email_address
  if email = "" ∨ isValidEmail email = false then (ResetRes.validEmailRequired, vstore)
  else if new_password = "" ∨ strLen new_password < 6 then (ResetRes.weakPassword, vstore)
  else if verify_token = "" then (ResetRes.tokenRequired, vstore)
  else
    match mapGet vstore verify_token with
    | none => (ResetRes.invalidToken, vstore)
    | some tokenRec =>
      if tokenRec.expiresAt < now then (ResetRes.tokenExpired, mapDel vstore verify_token)
      else if tokenRec.email ≠ email then (ResetRes.tokenMismatch, vstore)
      else if userExists = false then (ResetRes.emailNotFound, vstore)
      else (ResetRes.passwordUpdated, mapDel vstore verify_token)

/-- The decoded payload of a user session JWT
(`{ id, role, token_version }`, signed at login). -/
structure UserClaims where
  id : Nat
  token_version : Int
deriving DecidableEq

/-- Outcomes of the `requireUserJWT` middleware. -/
inductive UserAuthRes where
  | missingToken
  | unauthorized
  | invalidToken
  | userNotFound
  | sessionExpired
  | authorized (claims : UserClaims)
deriving DecidableEq

/-- `requireUserJWT` from `auth.js`.  `verify` models `jwt.verify` (returns
`none` when the signature is bad or the token expired, in which case the JS
throws and the catch block answers 401 Unauthorized), and `findVersion`
models the `SELECT token_version FROM register_random WHERE id=$1` lookup.
A falsy `decoded.id` is modelled as `id = 0`.  The guard rejects with
`sessionExpired` ("Session expired. Please login again.") exactly when the
stored version differs from the token's snapshot; it performs no write. -/
def requireUserJWT (verify : String → Option UserClaims) (findVersion : Nat → Option Int)
    (authHeader : String) : UserAuthRes :=
  if (strStartsWith authHeader "Bearer ") = false then UserAuthRes.missingToken
  else if strDrop authHeader 7 = "" then UserAuthRes.missingToken
  else
    match verify (strDrop authHeader 7) with
    | none => UserAuthRes.unauthorized
    | some decoded =>
      if decoded.id = 0 then UserAuthRes.invalidToken
      else
        match findVersion decoded.id with
        | none => UserAuthRes.userNotFound
        | some dbVer =>
          if dbVer ≠ decoded.token_version then UserAuthRes.sessionExpired
          else UserAuthRes.authorized decoded

/-- The decoded payload of an admin session JWT
(`{ admin_id, email, role, token_version }`, signed at admin login). -/
structure AdminClaims where
  admin_id : Nat
  email : String
  role : String
  token_version : Int
deriving DecidableEq

/-- Outcomes of the `requireAdmin` middleware. -/
inductive AdminAuthRes where
  | missingToken
  | unauthorized
  | adminOnly
  | invalidToken
  | notAllowed
  | authorized (claims : AdminClaims)
deriving DecidableEq

/-- `ALLOWED_ADMINS` from the admin router: the hard-coded identity allow-list. -/
def ALLOWED_ADMINS : List String :=
  [ "ajaykedar3790@gmail.com", "ajaykedar9657@gmail.com" ]

/-- `normEmail` from the admin router: trim and lowercase. -/
def normEmail (v : String) : String := jsToLower (jsTrim v)

/-- `requireAdmin` from the admin router.  It checks the Bearer token, the
JWT signature, `role = "admin"`, a nonempty email, and the allow-list —
and nothing else: in particular it takes no credential-store input and
never consults the stored `token_version`, even though the admin JWT
carries a `token_version` snapshot. -/
def requireAdmin (verify : String → Option AdminClaims) (authHeader : String) : AdminAuthRes :=
  if (strStartsWith authHeader "Bearer ") = false then AdminAuthRes.missingToken
  else if strDrop authHeader 7 = "" then AdminAuthRes.missingToken
  else
    match verify (strDrop authHeader 7) with
    | none => AdminAuthRes.unauthorized
    | some decoded =>
      let role := jsToLower decoded.role
      let email := normEmail decoded.email
      if role ≠ "admin" then AdminAuthRes.adminOnly
      else if email = "" then AdminAuthRes.invalidToken
      else if (ALLOWED_ADMINS.contains email) = false then AdminAuthRes.notAllowed
      else AdminAuthRes.authorized decoded

/-- A persisted credential row, restricted to the fields the session
lifecycle touches (`register_random` / `admin_random`). -/
structure Credential where
  password_hash : String
  token_version : Int
  is_active : Bool
deriving DecidableEq

/-- An SQL `UPDATE ... WHERE key = $1` over the keyed rows: applies `g` to
the matching row's credential and leaves every other row alone. -/
def mapUpdate {κ : Type} [DecidableEq κ] (db : List (κ × Credential)) (k : κ)
    (g : Credential → Credential) : List (κ × Credential) :=
  db.map (fun p => if p.1 = k then (p.1, g p.2) else p)

/-- `UPDATE ... SET token_version = token_version + 1 WHERE key = $1`:
the single SQL statement shared by `POST /logout`,
`PATCH /admin/:id/force-logout` and `PATCH /admin/users/:id/force-logout`. -/
def bumpTokenVersion {κ : Type} [DecidableEq κ] (db : List (κ × Credential)) (k : κ) :
    List (κ × Credential) :=
  mapUpdate db k (fun c => { c with token_version := c.token_version + 1 })

/-- `POST /logout` (user self logout): bump the user's `token_version`. -/
def userLogout (db : List (String × Credential)) (id : String) : List (String × Credential) :=
  bumpTokenVersion db id

/-- `PATCH /admin/:id/force-logout`: bump an admin's `token_version`. -/
def adminForceLogout (db : List (Nat × Credential)) (adminId : Nat) : List (Nat × Credential) :=
  bumpTokenVersion db adminId

/-- `PATCH /admin/users/:id/force-logout`: bump a user's `token_version`. -/
def adminForceLogoutUser (db : List (String × Credential)) (id : String) :
    List (String × Credential) :=
  bumpTokenVersion db id

/-- The `UPDATE register_random SET password_hash = $1 WHERE email_address = $2`
of `POST /forgot/reset-password`: replaces the hash, touching nothing else. -/
def resetPasswordHash (db : List (String × Credential)) (email hash : String) :
    List (String × Credential) :=
  mapUpdate db email (fun c => { c with password_hash := hash })

/-- The dynamic `UPDATE admin_random SET ...` of `PUT /admin/:id`: its field
whitelist can replace `password_hash` and `is_active` (among profile fields)
but never mentions `token_version`. -/
def adminUpdate (db : List (Nat × Credential)) (adminId : Nat)
    (newHash : Option String) (newActive : Option Bool) : List (Nat × Credential) :=
  mapUpdate db adminId (fun c =>
    { c with
      password_hash := newHash.getD c.password_hash,
      is_active := newActive.getD c.is_active })

/-- The stored `token_version` visible at a key, if the row exists. -/
def versionOpt {κ : Type} [DecidableEq κ] (db : List (κ × Credential)) (k : κ) : Option Int :=
  (mapGet db k).map (fun c => c.token_version)

/-- An admin row as selected by `POST /admin/login`. -/
structure AdminRow where
  admin_id : Nat
  email_username : String
  password_hash : String
  is_active : Bool
  token_version : Int
deriving DecidableEq

/-- `isBcryptHash` from the admin router: the stored value is treated as a
bcrypt hash exactly when it starts with `"$2"`. -/
def isBcryptHash (v : String) : Bool := strStartsWith v "$2"

/-- Outcomes of `POST /admin/login`. -/
inductive AdminLoginRes where
  | missingFields
  | notAllowedEmail
  | adminNotFound
  | disabled
  | invalidPassword
  | success (claims : AdminClaims)
deriving DecidableEq

/-- `POST /admin/login` from the admin router.  `bcryptCompare` models
`bcrypt.compare`; `found` is the row returned by the
`SELECT ... FROM admin_random WHERE LOWER(email_username) = LOWER($1)` query.
When the stored hash does not look like bcrypt, the supplied password is
compared by plain string equality (`password === String(stored || "")`).
On success the signed token embeds the row's `token_version`. -/
def adminLogin (bcryptCompare : String → String → Bool) (found : Option AdminRow)
    (usernameRaw passwordRaw : String) : AdminLoginRes :=
  let email := normEmail usernameRaw
  let password := passwordRaw
  if email = "" ∨ password = "" then AdminLoginRes.missingFields
  else if (ALLOWED_ADMINS.contains email) = false then AdminLoginRes.notAllowedEmail
  else
    match found with
    | none => AdminLoginRes.adminNotFound
    | some admin =>
      if admin.is_active = false then AdminLoginRes.disabled
      else
        let ok :=
          if isBcryptHash admin.password_hash then bcryptCompare password admin.password_hash
          else password == admin.password_hash
        if ok = false then AdminLoginRes.invalidPassword
        else
          AdminLoginRes.success
            { admin_id := admin.admin_id, email := normEmail admin.email_username,
              role := "admin", token_version := admin.token_version }

/-- A toy stand-in for the bcrypt collaborator used to evaluate concrete runs. -/
def hashDemo (code : String) : String := "#" ++ code

/-- The matching toy comparison: succeeds exactly on the hash of the code. -/
def compareDemo (code stored : String) : Bool := stored == "#" ++ code

/-- A concrete user-JWT decoder: one well-signed token carrying snapshot 0. -/
def c1UserVerify : String → Option UserClaims :=
  fun t => if t = "u" then some { id := 7, token_version := 0 } else none

/-- A concrete credential store where user 7's stored version has moved to 1. -/
def c1FindVersion : Nat → Option Int := fun i => if i = 7 then some 1 else none

/-- A well-signed admin payload whose `token_version` snapshot is the stale 0. -/
def c1AdminClaims : AdminClaims :=
  { admin_id := 1, email := "ajaykedar3790@gmail.com", role := "admin", token_version := 0 }

/-- A concrete admin-JWT decoder accepting one token with the stale payload. -/
def c1AdminVerify : String → Option AdminClaims :=
  fun t => if t = "a" then some c1AdminClaims else none

/-- One wrong-code verification step at concrete inputs: the stored code is
`111111`, the submitted code `222222`. -/
def c2Step (s : OtpStore) : VerifyOtpRes × OtpStore × TokStore :=
  verifyOtp compareDemo s [] 1000 "a@example.com" "222222" "tok"

/-- The OTP store after `n` wrong-code verifications, starting from one
fresh challenge for `a@example.com`. -/
def c2Store : Nat → OtpStore
  | 0 =>
    [ ("a@example.com",
        { otpHash := "#111111", expiresAt := 600000, attempts := 0, lastSentAt := 1 }) ]
  | n + 1 => (c2Step (c2Store n)).2.1

/-- Association-list lookup after delete. -/
theorem mapGet_del {κ α : Type} [DecidableEq κ] (s : List (κ × α)) (k q : κ) :
    mapGet (mapDel s k) q = if q = k then none else mapGet s q := by
  induction s with
  | nil =>
    by_cases h : q = k <;> simp [mapDel, mapGet, h]
  | cons a t ih =>
    obtain ⟨k1, v⟩ := a
    by_cases h1 : k1 = k <;> by_cases h2 : k1 = q <;> by_cases h3 : q = k <;>
      simp_all [mapDel, mapGet]

/-- Association-list lookup after set. -/
theorem mapGet_set {κ α : Type} [DecidableEq κ] (s : List (κ × α)) (k q : κ) (v : α) :
    mapGet (mapSet s k v) q = if k = q then some v else mapGet s q := by
  by_cases h : k = q
  · simp [mapSet, mapGet, h]
  · have h2 : ¬ q = k := fun hh => h hh.symm
    simp [mapSet, mapGet, mapGet_del, h, h2]

/-- Deleting a key twice is the same as deleting it once. -/
theorem mapDel_del {κ α : Type} [DecidableEq κ] (s : List (κ × α)) (k : κ) :
    mapDel (mapDel s k) k = mapDel s k := by
  induction s with
  | nil => rfl
  | cons a t ih =>
    obtain ⟨k1, v⟩ := a
    by_cases h : k1 = k
    · simp [mapDel, h, ih]
    · simp [mapDel, h, ih]

/-- Overwriting a key twice keeps only the second value. -/
theorem mapSet_set {κ α : Type} [DecidableEq κ] (s : List (κ × α)) (k : κ) (v w : α) :
    mapSet (mapSet s k v) k w = mapSet s k w := by
  simp [mapSet, mapDel, mapDel_del]

/-- Deleting a freshly set key deletes the old bindings as well. -/
theorem mapDel_set {κ α : Type} [DecidableEq κ] (s : List (κ × α)) (k : κ) (v : α) :
    mapDel (mapSet s k v) k = mapDel s k := by
  simp [mapSet, mapDel, mapDel_del]

/-- `verify-otp`, branch: the email fails validation. -/
theorem verifyOtp_badEmail_eq (compare : String → String → Bool) (store : OtpStore)
    (vstore : TokStore) (now : Int) (emailRaw otpRaw newToken : String)
    (hbad : normalizeEmail emailRaw = "" ∨ isValidEmail (normalizeEmail emailRaw) = false) :
    verifyOtp compare store vstore now emailRaw otpRaw newToken =
      (VerifyOtpRes.validEmailRequired, store, vstore) := by
  rcases hbad with h | h <;> simp [verifyOtp, h]

/-- `verify-otp`, branch: the OTP fails the 6-digit check. -/
theorem verifyOtp_badOtp_eq (compare : String → String → Bool) (store : OtpStore)
    (vstore : TokStore) (now : Int) (emailRaw otpRaw newToken : String)
    (he : normalizeEmail emailRaw ≠ "") (hev : isValidEmail (normalizeEmail emailRaw) = true)
    (ho : isOtp6 (jsTrim otpRaw) = false) :
    verifyOtp compare store vstore now emailRaw otpRaw newToken =
      (VerifyOtpRes.validOtpRequired, store, vstore) := by
  simp [verifyOtp, he, hev, ho]

/-- `verify-otp`, branch: no live challenge for the email. -/
theorem verifyOtp_notFound_eq (compare : String → String → Bool) (store : OtpStore)
    (vstore : TokStore) (now : Int) (emailRaw otpRaw newToken : String)
    (he : normalizeEmail emailRaw ≠ "") (hev : isValidEmail (normalizeEmail emailRaw) = true)
    (ho : isOtp6 (jsTrim otpRaw) = true)
    (hget : mapGet store (normalizeEmail emailRaw) = none) :
    verifyOtp compare store vstore now emailRaw otpRaw newToken =
      (VerifyOtpRes.notFound, store, vstore) := by
  simp [verifyOtp, he, hev, ho, hget]

/-- `verify-otp`, branch: the challenge is past its TTL — deleted. -/
theorem verifyOtp_expired_eq (compare : String → String → Bool) (store : OtpStore)
    (vstore : TokStore) (now : Int) (emailRaw otpRaw newToken : String) (chal : OtpRec)
    (he : normalizeEmail emailRaw ≠ "") (hev : isValidEmail (normalizeEmail emailRaw) = true)
    (ho : isOtp6 (jsTrim otpRaw) = true)
    (hget : mapGet store (normalizeEmail emailRaw) = some chal)
    (hexp : chal.expiresAt < now) :
    verifyOtp compare store vstore now emailRaw otpRaw newToken =
      (VerifyOtpRes.expired, mapDel store (normalizeEmail emailRaw), vstore) := by
  simp [verifyOtp, he, hev, ho, hget, hexp]

/-- `verify-otp`, branch: the attempt budget is already exhausted — deleted. -/
theorem verifyOtp_tooMany_eq (compare : String → String → Bool) (store : OtpStore)
    (vstore : TokStore) (now : Int) (emailRaw otpRaw newToken : String) (chal : OtpRec)
    (he : normalizeEmail emailRaw ≠ "") (hev : isValidEmail (normalizeEmail emailRaw) = true)
    (ho : isOtp6 (jsTrim otpRaw) = true)
    (hget : mapGet store (normalizeEmail emailRaw) = some chal)
    (hexp : ¬ chal.expiresAt < now)
    (hmax : MAX_OTP_ATTEMPTS ≤ chal.attempts) :
    verifyOtp compare store vstore now emailRaw otpRaw newToken =
      (VerifyOtpRes.tooManyAttempts, mapDel store (normalizeEmail emailRaw), vstore) := by
  simp [verifyOtp, he, hev, ho, hget, hexp, hmax]

/-- `verify-otp`, branch: live challenge, budget left, code mismatch —
the attempt counter is charged and the challenge retained. -/
theorem verifyOtp_wrong_eq (compare : String → String → Bool) (store : OtpStore)
    (vstore : TokStore) (now : Int) (emailRaw otpRaw newToken : String) (chal : OtpRec)
    (he : normalizeEmail emailRaw ≠ "") (hev : isValidEmail (normalizeEmail emailRaw) = true)
    (ho : isOtp6 (jsTrim otpRaw) = true)
    (hget : mapGet store (normalizeEmail emailRaw) = some chal)
    (hexp : ¬ chal.expiresAt < now)
    (hatt : chal.attempts < MAX_OTP_ATTEMPTS)
    (hbad : compare (jsTrim otpRaw) chal.otpHash = false) :
    verifyOtp compare store vstore now emailRaw otpRaw newToken =
      (VerifyOtpRes.invalidCode,
        mapSet store (normalizeEmail emailRaw) { chal with attempts := chal.attempts + 1 },
        vstore) := by
  have hmax : ¬ MAX_OTP_ATTEMPTS ≤ chal.attempts := Nat.not_le.mpr hatt
  simp [verifyOtp, he, hev, ho, hget, hexp, hmax, hbad]

/-- `verify-otp`, branch: live challenge, budget left, code match —
the challenge is deleted and a fresh verify token issued. -/
theorem verifyOtp_correct_eq (compare : String → String → Bool) (store : OtpStore)
    (vstore : TokStore) (now : Int) (emailRaw otpRaw newToken : String) (chal : OtpRec)
    (he : normalizeEmail emailRaw ≠ "") (hev : isValidEmail (normalizeEmail emailRaw) = true)
    (ho : isOtp6 (jsTrim otpRaw) = true)
    (hget : mapGet store (normalizeEmail emailRaw) = some chal)
    (hexp : ¬ chal.expiresAt < now)
    (hatt : chal.attempts < MAX_OTP_ATTEMPTS)
    (hok : compare (jsTrim otpRaw) chal.otpHash = true) :
    verifyOtp compare store vstore now emailRaw otpRaw newToken =
      (VerifyOtpRes.verified newToken, mapDel store (normalizeEmail emailRaw),
        mapSet vstore newToken
          { email := normalizeEmail emailRaw, expiresAt := now + VERIFY_TOKEN_TTL_MS }) := by
  have hmax : ¬ MAX_OTP_ATTEMPTS ≤ chal.attempts := Nat.not_le.mpr hatt
  simp [verifyOtp, he, hev, ho, hget, hexp, hmax, hok, mapDel_set]

/-- `send-otp`, branch: the email fails validation. -/
theorem sendOtp_badEmail_eq (registered dispatchOk : Bool) (hash : String → String)
    (store : OtpStore) (now : Int) (emailRaw otp : String)
    (hbad : normalizeEmail emailRaw = "" ∨ isValidEmail (normalizeEmail emailRaw) = false) :
    sendOtp registered dispatchOk hash store now emailRaw otp =
      (SendOtpRes.validEmailRequired, store) := by
  rcases hbad with h | h <;> simp [sendOtp, h]

/-- `send-otp`, branch: the email is already registered. -/
theorem sendOtp_registered_eq (dispatchOk : Bool) (hash : String → String)
    (store : OtpStore) (now : Int) (emailRaw otp : String)
    (he : normalizeEmail emailRaw ≠ "") (hev : isValidEmail (normalizeEmail emailRaw) = true) :
    sendOtp true dispatchOk hash store now emailRaw otp =
      (SendOtpRes.alreadyRegistered, store) := by
  simp [sendOtp, he, hev]

/-- `send-otp`, branch: a prior challenge is inside the resend cooldown —
the stored challenge is left untouched. -/
theorem sendOtp_rateLimited_eq (dispatchOk : Bool) (hash : String → String)
    (store : OtpStore) (now : Int) (emailRaw otp : String)
    (he : normalizeEmail emailRaw ≠ "") (hev : isValidEmail (normalizeEmail emailRaw) = true)
    (hcool : cooldownActive store (normalizeEmail emailRaw) now = true) :
    sendOtp false dispatchOk hash store now emailRaw otp =
      (SendOtpRes.rateLimited, store) := by
  simp [sendOtp, he, hev, hcool]

/-- `send-otp`, branch: issuance — the ledger is overwritten with a fresh
challenge before dispatch; the response depends on the dispatch outcome. -/
theorem sendOtp_issue_eq (dispatchOk : Bool) (hash : String → String)
    (store : OtpStore) (now : Int) (emailRaw otp : String)
    (he : normalizeEmail emailRaw ≠ "") (hev : isValidEmail (normalizeEmail emailRaw) = true)
    (hcool : cooldownActive store (normalizeEmail emailRaw) now = false) :
    sendOtp false dispatchOk hash store now emailRaw otp =
      ((if dispatchOk then SendOtpRes.otpSent else SendOtpRes.serverError),
        mapSet store (normalizeEmail emailRaw)
          { otpHash := hash otp, expiresAt := now + OTP_TTL_MS,
            attempts := 0, lastSentAt := now }) := by
  cases dispatchOk <;> simp [sendOtp, he, hev, hcool]

/-- `register`, branch: the verify token is consumed — deleted only after
the successful insert. -/
theorem register_ok_eq (dup : Bool) (vstore : TokStore) (now : Int)
    (first_name last_name mobile_number email_address password pincode verify_token : String)
    (tokenRec : VerifyTokenRec)
    (hfn : first_name ≠ "") (hln : last_name ≠ "") (hmobne : mobile_number ≠ "")
    (he : normalizeEmail email_address ≠ "") (hpw : password ≠ "")
    (hmob : isValidMobile10 mobile_number = true)
    (hev : isValidEmail (normalizeEmail email_address) = true)
    (hpc : isValidPincode6OrEmpty pincode = true)
    (htok : verify_token ≠ "")
    (hget : mapGet vstore verify_token = some tokenRec)
    (hfresh : ¬ tokenRec.expiresAt < now)
    (hmatch : tokenRec.email = normalizeEmail email_address)
    (hdup : dup = false) :
    register dup vstore now first_name last_name mobile_number email_address password
        pincode verify_token =
      (RegisterRes.registered, mapDel vstore verify_token) := by
  simp [register, hfn, hln, hmobne, he, hpw, hmob, hev, hpc, htok, hget, hfresh, hmatch, hdup]

/-- `register`, branch: unknown verify token — the collapsed 401. -/
theorem register_tokenMissing_eq (dup : Bool) (vstore : TokStore) (now : Int)
    (first_name last_name mobile_number email_address password pincode verify_token : String)
    (hfn : first_name ≠ "") (hln : last_name ≠ "") (hmobne : mobile_number ≠ "")
    (he : normalizeEmail email_address ≠ "") (hpw : password ≠ "")
    (hmob : isValidMobile10 mobile_number = true)
    (hev : isValidEmail (normalizeEmail email_address) = true)
    (hpc : isValidPincode6OrEmpty pincode = true)
    (htok : verify_token ≠ "")
    (hget : mapGet vstore verify_token = none) :
    register dup vstore now first_name last_name mobile_number email_address password
        pincode verify_token =
      (RegisterRes.invalidVerifyToken, vstore) := by
  simp [register, hfn, hln, hmobne, he, hpw, hmob, hev, hpc, htok, hget]

/-- `register`, branch: expired or mismatched verify token — the same
collapsed 401, and the token is NOT deleted from the ledger. -/
theorem register_tokenStale_eq (dup : Bool) (vstore : TokStore) (now : Int)
    (first_name last_name mobile_number email_address password pincode verify_token : String)
    (tokenRec : VerifyTokenRec)
    (hfn : first_name ≠ "") (hln : last_name ≠ "") (hmobne : mobile_number ≠ "")
    (he : normalizeEmail email_address ≠ "") (hpw : password ≠ "")
    (hmob : isValidMobile10 mobile_number = true)
    (hev : isValidEmail (normalizeEmail email_address) = true)
    (hpc : isValidPincode6OrEmpty pincode = true)
    (htok : verify_token ≠ "")
    (hget : mapGet vstore verify_token = some tokenRec)
    (hstale : tokenRec.expiresAt < now ∨ tokenRec.email ≠ normalizeEmail email_address) :
    register dup vstore now first_name last_name mobile_number email_address password
        pincode verify_token =
      (RegisterRes.invalidVerifyToken, vstore) := by
  rcases hstale with h | h <;>
    simp [register, hfn, hln, hmobne, he, hpw, hmob, hev, hpc, htok, hget, h]

/-- `reset-password`, branch: the verify token is consumed and deleted. -/
theorem resetPassword_ok_eq (vstore : TokStore) (now : Int)
    (email_address new_password verify_token : String) (tokenRec : VerifyTokenRec)
    (he : normalizeEmail email_address ≠ "")
    (hev : isValidEmail (normalizeEmail email_address) = true)
    (hnp : new_password ≠ "") (hlen : ¬ strLen new_password < 6)
    (htok : verify_token ≠ "")
    (hget : mapGet vstore verify_token = some tokenRec)
    (hfresh : ¬ tokenRec.expiresAt < now)
    (hmatch : tokenRec.email = normalizeEmail email_address) :
    resetPassword true vstore now email_address new_password verify_token =
      (ResetRes.passwordUpdated, mapDel vstore verify_token) := by
  simp [resetPassword, he, hev, hnp, hlen, htok, hget, hfresh, hmatch]

/-- `reset-password`, branch: unknown verify token. -/
theorem resetPassword_missing_eq (userExists : Bool) (vstore : TokStore) (now : Int)
    (email_address new_password verify_token : String)
    (he : normalizeEmail email_address ≠ "")
    (hev : isValidEmail (normalizeEmail email_address) = true)
    (hnp : new_password ≠ "") (hlen : ¬ strLen new_password < 6)
    (htok : verify_token ≠ "")
    (hget : mapGet vstore verify_token = none) :
    resetPassword userExists vstore now email_address new_password verify_token =
      (ResetRes.invalidToken, vstore) := by
  simp [resetPassword, he, hev, hnp, hlen, htok, hget]

/-- `reset-password`, branch: expired verify token — reported distinctly
and deleted from the ledger. -/
theorem resetPassword_expired_eq (userExists : Bool) (vstore : TokStore) (now : Int)
    (email_address new_password verify_token : String) (tokenRec : VerifyTokenRec)
    (he : normalizeEmail email_address ≠ "")
    (hev : isValidEmail (normalizeEmail email_address) = true)
    (hnp : new_password ≠ "") (hlen : ¬ strLen new_password < 6)
    (htok : verify_token ≠ "")
    (hget : mapGet vstore verify_token = some tokenRec)
    (hexp : tokenRec.expiresAt < now) :
    resetPassword userExists vstore now email_address new_password verify_token =
      (ResetRes.tokenExpired, mapDel vstore verify_token) := by
  simp [resetPassword, he, hev, hnp, hlen, htok, hget, hexp]

/-- A keyed SQL update rewrites exactly the looked-up row. -/
theorem mapGet_update_self {κ : Type} [DecidableEq κ] (db : List (κ × Credential)) (k : κ)
    (g : Credential → Credential) :
    mapGet (mapUpdate db k g) k = (mapGet db k).map g := by
  induction db with
  | nil => simp [mapUpdate, mapGet]
  | cons a t ih =>
    obtain ⟨k1, c⟩ := a
    have hmap : mapUpdate ((k1, c) :: t) k g =
        (if k1 = k then (k1, g c) else (k1, c)) :: mapUpdate t k g := rfl
    rw [hmap]
    by_cases h1 : k1 = k
    · rw [if_pos h1]
      simp [mapGet, h1]
    · rw [if_neg h1]
      simp [mapGet, h1, ih]

/-- A keyed SQL update leaves every other row's lookup unchanged. -/
theorem mapGet_update_ne {κ : Type} [DecidableEq κ] (db : List (κ × Credential)) (k q : κ)
    (g : Credential → Credential) (h : q ≠ k) :
    mapGet (mapUpdate db k g) q = mapGet db q := by
  induction db with
  | nil => simp [mapUpdate, mapGet]
  | cons a t ih =>
    obtain ⟨k1, c⟩ := a
    have hmap : mapUpdate ((k1, c) :: t) k g =
        (if k1 = k then (k1, g c) else (k1, c)) :: mapUpdate t k g := rfl
    rw [hmap]
    by_cases h1 : k1 = k
    · rw [if_pos h1]
      have h2 : ¬ k1 = q := fun hh => h (hh.symm.trans h1)
      simp [mapGet, h2, ih]
    · rw [if_neg h1]
      by_cases h2 : k1 = q <;> simp [mapGet, h2, ih]

/-- The force-logout SQL leaves a row's version unchanged or bumps it by one. -/
theorem versionOpt_bump {κ : Type} [DecidableEq κ] (db : List (κ × Credential)) (k q : κ) :
    versionOpt (bumpTokenVersion db k) q = versionOpt db q ∨
    versionOpt (bumpTokenVersion db k) q = (versionOpt db q).map (fun v => v + 1) := by
  by_cases h : q = k
  · subst h
    right
    unfold bumpTokenVersion versionOpt
    rw [mapGet_update_self]
    cases mapGet db q <;> rfl
  · left
    unfold bumpTokenVersion versionOpt
    rw [mapGet_update_ne db k q _ h]

/-- A keyed update whose row transformer preserves `token_version` leaves
every row's version unchanged. -/
theorem versionOpt_update_keep {κ : Type} [DecidableEq κ] (db : List (κ × Credential))
    (k q : κ) (g : Credential → Credential)
    (hg : ∀ c, (g c).token_version = c.token_version) :
    versionOpt (mapUpdate db k g) q = versionOpt db q := by
  by_cases h : q = k
  · subst h
    unfold versionOpt
    rw [mapGet_update_self]
    cases hc : mapGet db q
    · rfl
    · simp [hg]
  · unfold versionOpt
    rw [mapGet_update_ne db k q g h]

/-- Every challenge present after a `verify-otp` call descends from a
challenge present before it: `attempts` is unchanged, or charged by exactly
one — and charged only while the budget still allowed another attempt. -/
theorem verifyOtp_store_evolution (compare : String → String → Bool) (store : OtpStore)
    (vstore : TokStore) (now : Int) (emailRaw otpRaw newToken : String)
    (q : String) (r2 : OtpRec)
    (h : mapGet (verifyOtp compare store vstore now emailRaw otpRaw newToken).2.1 q = some r2) :
    ∃ r1, mapGet store q = some r1 ∧
      (r2 = r1 ∨ (r2.attempts = r1.attempts + 1 ∧ r1.attempts < MAX_OTP_ATTEMPTS)) := by
  by_cases hv : normalizeEmail emailRaw = "" ∨ isValidEmail (normalizeEmail emailRaw) = false
  · simp only [verifyOtp_badEmail_eq compare store vstore now emailRaw otpRaw newToken hv] at h
    exact ⟨r2, h, Or.inl rfl⟩
  · push_neg at hv
    obtain ⟨he, hev2⟩ := hv
    have hev : isValidEmail (normalizeEmail emailRaw) = true := by
      revert hev2
      cases isValidEmail (normalizeEmail emailRaw) <;> simp
    by_cases ho : isOtp6 (jsTrim otpRaw) = true
    · rcases hm : mapGet store (normalizeEmail emailRaw) with _ | chal
      · simp only [verifyOtp_notFound_eq compare store vstore now emailRaw otpRaw newToken
          he hev ho hm] at h
        exact ⟨r2, h, Or.inl rfl⟩
      · by_cases hexp : chal.expiresAt < now
        · simp only [verifyOtp_expired_eq compare store vstore now emailRaw otpRaw newToken
            chal he hev ho hm hexp] at h
          rw [mapGet_del] at h
          by_cases hq : q = normalizeEmail emailRaw
          · rw [if_pos hq] at h
            simp at h
          · rw [if_neg hq] at h
            exact ⟨r2, h, Or.inl rfl⟩
        · by_cases hmax : MAX_OTP_ATTEMPTS ≤ chal.attempts
          · simp only [verifyOtp_tooMany_eq compare store vstore now emailRaw otpRaw newToken
              chal he hev ho hm hexp hmax] at h
            rw [mapGet_del] at h
            by_cases hq : q = normalizeEmail emailRaw
            · rw [if_pos hq] at h
              simp at h
            · rw [if_neg hq] at h
              exact ⟨r2, h, Or.inl rfl⟩
          · have hatt : chal.attempts < MAX_OTP_ATTEMPTS := Nat.lt_of_not_le hmax
            by_cases hcmp : compare (jsTrim otpRaw) chal.otpHash = false
            · simp only [verifyOtp_wrong_eq compare store vstore now emailRaw otpRaw newToken
                chal he hev ho hm hexp hatt hcmp] at h
              rw [mapGet_set] at h
              by_cases hq : normalizeEmail emailRaw = q
              · rw [if_pos hq] at h
                have h2 : r2 = { chal with attempts := chal.attempts + 1 } := by
                  injection h with h3
                  exact h3.symm
                refine ⟨chal, ?_, Or.inr ⟨?_, hatt⟩⟩
                · rw [← hq]
                  exact hm
                · rw [h2]
              · rw [if_neg hq] at h
                exact ⟨r2, h, Or.inl rfl⟩
            · have hok : compare (jsTrim otpRaw) chal.otpHash = true := by
                revert hcmp
                cases compare (jsTrim otpRaw) chal.otpHash <;> simp
              simp only [verifyOtp_correct_eq compare store vstore now emailRaw otpRaw newToken
                chal he hev ho hm hexp hatt hok] at h
              rw [mapGet_del] at h
              by_cases hq : q = normalizeEmail emailRaw
              · rw [if_pos hq] at h
                simp at h
              · rw [if_neg hq] at h
                exact ⟨r2, h, Or.inl rfl⟩
    · have ho2 : isOtp6 (jsTrim otpRaw) = false := by
        revert ho
        cases isOtp6 (jsTrim otpRaw) <;> simp
      simp only [verifyOtp_badOtp_eq compare store vstore now emailRaw otpRaw newToken
        he hev ho2] at h
      exact ⟨r2, h, Or.inl rfl⟩

/-- Every challenge present after a `send-otp` call is either a fresh one
with `attempts = 0` or was already present unchanged. -/
theorem sendOtp_store_entries (registered dispatchOk : Bool) (hash : String → String)
    (store : OtpStore) (now : Int) (emailRaw otp : String) (q : String) (r2 : OtpRec)
    (h : mapGet (sendOtp registered dispatchOk hash store now emailRaw otp).2 q = some r2) :
    r2.attempts = 0 ∨ mapGet store q = some r2 := by
  by_cases hv : normalizeEmail emailRaw = "" ∨ isValidEmail (normalizeEmail emailRaw) = false
  · simp only [sendOtp_badEmail_eq registered dispatchOk hash store now emailRaw otp hv] at h
    exact Or.inr h
  · push_neg at hv
    obtain ⟨he, hev2⟩ := hv
    have hev : isValidEmail (normalizeEmail emailRaw) = true := by
      revert hev2
      cases isValidEmail (normalizeEmail emailRaw) <;> simp
    cases registered with
    | true =>
      simp only [sendOtp_registered_eq dispatchOk hash store now emailRaw otp he hev] at h
      exact Or.inr h
    | false =>
      by_cases hcool : cooldownActive store (normalizeEmail emailRaw) now = true
      · simp only [sendOtp_rateLimited_eq dispatchOk hash store now emailRaw otp he hev hcool] at h
        exact Or.inr h
      · have hcool2 : cooldownActive store (normalizeEmail emailRaw) now = false := by
          revert hcool
          cases cooldownActive store (normalizeEmail emailRaw) now <;> simp
        simp only [sendOtp_issue_eq dispatchOk hash store now emailRaw otp he hev hcool2] at h
        rw [mapGet_set] at h
        by_cases hq : normalizeEmail emailRaw = q
        · rw [if_pos hq] at h
          injection h with h3
          rw [← h3]
          exact Or.inl rfl
        · rw [if_neg hq] at h
          exact Or.inr h

/-- A wrong-code verification against a store whose challenge currently
shows `attempts = i < 5` answers InvalidCode and moves the entry to
`attempts = i + 1`. -/
theorem verifyOtp_wrong_at (compare : String → String → Bool) (store : OtpStore)
    (vstore : TokStore) (now : Int) (emailRaw otpRaw newToken : String) (chal : OtpRec)
    (i : Nat)
    (he : normalizeEmail emailRaw ≠ "") (hev : isValidEmail (normalizeEmail emailRaw) = true)
    (ho : isOtp6 (jsTrim otpRaw) = true)
    (hexp : ¬ chal.expiresAt < now)
    (hbad : compare (jsTrim otpRaw) chal.otpHash = false)
    (hi : i < MAX_OTP_ATTEMPTS) :
    verifyOtp compare (mapSet store (normalizeEmail emailRaw) { chal with attempts := i })
        vstore now emailRaw otpRaw newToken =
      (VerifyOtpRes.invalidCode,
        mapSet store (normalizeEmail emailRaw) { chal with attempts := i + 1 }, vstore) := by
  have hget2 : mapGet (mapSet store (normalizeEmail emailRaw) { chal with attempts := i })
      (normalizeEmail emailRaw) = some { chal with attempts := i } := by
    simp [mapGet_set]
  have h := verifyOtp_wrong_eq compare
    (mapSet store (normalizeEmail emailRaw) { chal with attempts := i })
    vstore now emailRaw otpRaw newToken { chal with attempts := i }
    he hev ho hget2 hexp hi hbad
  rw [mapSet_set] at h
  exact h

/-- C1: a session token stamped with version 0 while the store already holds
version 1 is rejected by the user guard with the session-revoked response,
but the admin guard — which never fetches the stored version — still
authorizes an admin token carrying the same stale snapshot.  This evaluates
the code at the claim's failing input and exhibits the divergence. -/
theorem c1_admin_guard_skips_version_check :
    requireUserJWT c1UserVerify c1FindVersion "Bearer u" = UserAuthRes.sessionExpired
    ∧ requireAdmin c1AdminVerify "Bearer a" = AdminAuthRes.authorized c1AdminClaims
    ∧ c1AdminClaims.token_version = 0 := by
  refine ⟨?_, ?_, rfl⟩ <;> decide

/-- C2 (counterexample): starting from a fresh challenge with `attempts = 0`,
four wrong submissions each answer InvalidCode and leave `attempts = 4`; the
claim predicts the FIFTH wrong submission answers TooManyAttempts, but the
code answers InvalidCode again (the guard fires only once `attempts` has
already reached 5, i.e. on the sixth call). -/
theorem c2_counterexample :
    ((c2Step (c2Store 0)).1 = VerifyOtpRes.invalidCode
      ∧ (c2Step (c2Store 1)).1 = VerifyOtpRes.invalidCode
      ∧ (c2Step (c2Store 2)).1 = VerifyOtpRes.invalidCode
      ∧ (c2Step (c2Store 3)).1 = VerifyOtpRes.invalidCode
      ∧ mapGet (c2Store 4) "a@example.com" =
          some { otpHash := "#111111", expiresAt := 600000, attempts := 4, lastSentAt := 1 })
    ∧ (c2Step (c2Store 4)).1 = VerifyOtpRes.invalidCode
    ∧ (c2Step (c2Store 4)).1 ≠ VerifyOtpRes.tooManyAttempts := by
  decide

/-- C2 (amended): with the maximum set to 5, FIVE wrong submissions each
return InvalidCode, charging `attempts` from 0 up to 5; the SIXTH
verification returns TooManyAttempts and deletes the challenge, and any
subsequent verification returns NotFound. -/
theorem c2_amended (compare : String → String → Bool) (store : OtpStore) (vstore : TokStore)
    (now : Int) (emailRaw otpRaw newToken : String) (chal : OtpRec)
    (he : normalizeEmail emailRaw ≠ "") (hev : isValidEmail (normalizeEmail emailRaw) = true)
    (ho : isOtp6 (jsTrim otpRaw) = true)
    (hget : mapGet store (normalizeEmail emailRaw) = some chal)
    (hatt0 : chal.attempts = 0)
    (hexp : ¬ chal.expiresAt < now)
    (hbad : compare (jsTrim otpRaw) chal.otpHash = false) :
    verifyOtp compare store vstore now emailRaw otpRaw newToken =
      (VerifyOtpRes.invalidCode,
        mapSet store (normalizeEmail emailRaw) { chal with attempts := 1 }, vstore)
    ∧ verifyOtp compare (mapSet store (normalizeEmail emailRaw) { chal with attempts := 1 })
        vstore now emailRaw otpRaw newToken =
      (VerifyOtpRes.invalidCode,
        mapSet store (normalizeEmail emailRaw) { chal with attempts := 2 }, vstore)
    ∧ verifyOtp compare (mapSet store (normalizeEmail emailRaw) { chal with attempts := 2 })
        vstore now emailRaw otpRaw newToken =
      (VerifyOtpRes.invalidCode,
        mapSet store (normalizeEmail emailRaw) { chal with attempts := 3 }, vstore)
    ∧ verifyOtp compare (mapSet store (normalizeEmail emailRaw) { chal with attempts := 3 })
        vstore now emailRaw otpRaw newToken =
      (VerifyOtpRes.invalidCode,
        mapSet store (normalizeEmail emailRaw) { chal with attempts := 4 }, vstore)
    ∧ verifyOtp compare (mapSet store (normalizeEmail emailRaw) { chal with attempts := 4 })
        vstore now emailRaw otpRaw newToken =
      (VerifyOtpRes.invalidCode,
        mapSet store (normalizeEmail emailRaw) { chal with attempts := 5 }, vstore)
    ∧ mapGet (mapSet store (normalizeEmail emailRaw) { chal with attempts := 5 })
        (normalizeEmail emailRaw) = some { chal with attempts := 5 }
    ∧ verifyOtp compare (mapSet store (normalizeEmail emailRaw) { chal with attempts := 5 })
        vstore now emailRaw otpRaw newToken =
      (VerifyOtpRes.tooManyAttempts,
        mapDel (mapSet store (normalizeEmail emailRaw) { chal with attempts := 5 })
          (normalizeEmail emailRaw), vstore)
    ∧ mapGet (mapDel (mapSet store (normalizeEmail emailRaw) { chal with attempts := 5 })
        (normalizeEmail emailRaw)) (normalizeEmail emailRaw) = none
    ∧ verifyOtp compare
        (mapDel (mapSet store (normalizeEmail emailRaw) { chal with attempts := 5 })
          (normalizeEmail emailRaw))
        vstore now emailRaw otpRaw newToken =
      (VerifyOtpRes.notFound,
        mapDel (mapSet store (normalizeEmail emailRaw) { chal with attempts := 5 })
          (normalizeEmail emailRaw), vstore) := by
  have hstep0 : verifyOtp compare store vstore now emailRaw otpRaw newToken =
      (VerifyOtpRes.invalidCode,
        mapSet store (normalizeEmail emailRaw) { chal with attempts := 1 }, vstore) := by
    have h := verifyOtp_wrong_eq compare store vstore now emailRaw otpRaw newToken chal
      he hev ho hget hexp (by rw [hatt0]; decide) hbad
    rw [hatt0] at h
    exact h
  have hget5 : mapGet (mapSet store (normalizeEmail emailRaw) { chal with attempts := 5 })
      (normalizeEmail emailRaw) = some { chal with attempts := 5 } := by
    simp [mapGet_set]
  have hstep5 := verifyOtp_tooMany_eq compare
    (mapSet store (normalizeEmail emailRaw) { chal with attempts := 5 })
    vstore now emailRaw otpRaw newToken { chal with attempts := 5 }
    he hev ho hget5 hexp (Nat.le_refl 5)
  have hgone : mapGet (mapDel (mapSet store (normalizeEmail emailRaw)
      { chal with attempts := 5 }) (normalizeEmail emailRaw)) (normalizeEmail emailRaw)
      = none := by
    rw [mapGet_del]
    simp
  refine ⟨hstep0,
    verifyOtp_wrong_at compare store vstore now emailRaw otpRaw newToken chal 1
      he hev ho hexp hbad (by decide),
    verifyOtp_wrong_at compare store vstore now emailRaw otpRaw newToken chal 2
      he hev ho hexp hbad (by decide),
    verifyOtp_wrong_at compare store vstore now emailRaw otpRaw newToken chal 3
      he hev ho hexp hbad (by decide),
    verifyOtp_wrong_at compare store vstore now emailRaw otpRaw newToken chal 4
      he hev ho hexp hbad (by decide),
    hget5, hstep5, hgone,
    verifyOtp_notFound_eq compare _ vstore now emailRaw otpRaw newToken he hev ho hgone⟩

/-- C2 amended, evaluated at the counterexample's concrete inputs: the first
wrong-code verification answers InvalidCode and charges the counter to 1. -/
theorem c2_amended_witness :
    verifyOtp compareDemo (c2Store 0) [] 1000 "a@example.com" "222222" "tok" =
      (VerifyOtpRes.invalidCode,
        mapSet (c2Store 0) (normalizeEmail "a@example.com")
          { otpHash := "#111111", expiresAt := 600000, attempts := 1, lastSentAt := 1 },
        []) :=
  (c2_amended compareDemo (c2Store 0) [] 1000 "a@example.com" "222222" "tok"
    { otpHash := "#111111", expiresAt := 600000, attempts := 0, lastSentAt := 1 }
    (by decide) (by decide) (by decide) (by decide) rfl (by decide) (by decide)).1

/-- C3: a verify token is consumed at most once — a successful registration
deletes the token from the ledger and any second consume attempt with the
same token string, through either endpoint, lands in the unknown-token
branch; likewise for a successful password reset. -/
theorem c3_verify_token_single_use (dup2 : Bool) (vstore : TokStore) (now : Int)
    (first_name last_name mobile_number email_address password pincode verify_token
      new_password : String) (tokenRec : VerifyTokenRec)
    (hfn : first_name ≠ "") (hln : last_name ≠ "") (hmobne : mobile_number ≠ "")
    (he : normalizeEmail email_address ≠ "") (hpw : password ≠ "")
    (hmob : isValidMobile10 mobile_number = true)
    (hev : isValidEmail (normalizeEmail email_address) = true)
    (hpc : isValidPincode6OrEmpty pincode = true)
    (htok : verify_token ≠ "")
    (hnp : new_password ≠ "") (hlen : ¬ strLen new_password < 6)
    (hget : mapGet vstore verify_token = some tokenRec)
    (hfresh : ¬ tokenRec.expiresAt < now)
    (hmatch : tokenRec.email = normalizeEmail email_address) :
    (register false vstore now first_name last_name mobile_number email_address password
        pincode verify_token = (RegisterRes.registered, mapDel vstore verify_token)
      ∧ mapGet (mapDel vstore verify_token) verify_token = none
      ∧ (register dup2 (mapDel vstore verify_token) now first_name last_name mobile_number
          email_address password pincode verify_token).1 = RegisterRes.invalidVerifyToken
      ∧ (resetPassword true (mapDel vstore verify_token) now email_address new_password
          verify_token).1 = ResetRes.invalidToken)
    ∧ (resetPassword true vstore now email_address new_password verify_token =
        (ResetRes.passwordUpdated, mapDel vstore verify_token)
      ∧ (resetPassword true (mapDel vstore verify_token) now email_address new_password
          verify_token).1 = ResetRes.invalidToken) := by
  have hgone : mapGet (mapDel vstore verify_token) verify_token = none := by
    rw [mapGet_del]
    simp
  have hreg2 : (register dup2 (mapDel vstore verify_token) now first_name last_name
      mobile_number email_address password pincode verify_token).1 =
      RegisterRes.invalidVerifyToken := by
    rw [register_tokenMissing_eq dup2 (mapDel vstore verify_token) now first_name last_name
      mobile_number email_address password pincode verify_token
      hfn hln hmobne he hpw hmob hev hpc htok hgone]
  have hrst2 : (resetPassword true (mapDel vstore verify_token) now email_address new_password
      verify_token).1 = ResetRes.invalidToken := by
    rw [resetPassword_missing_eq true (mapDel vstore verify_token) now email_address
      new_password verify_token he hev hnp hlen htok hgone]
  exact ⟨⟨register_ok_eq false vstore now first_name last_name mobile_number email_address
      password pincode verify_token tokenRec hfn hln hmobne he hpw hmob hev hpc htok hget
      hfresh hmatch rfl, hgone, hreg2, hrst2⟩,
    ⟨resetPassword_ok_eq vstore now email_address new_password verify_token tokenRec
      he hev hnp hlen htok hget hfresh hmatch, hrst2⟩⟩

/-- C3, evaluated at a concrete successful registration: the consume deletes
the token and a second registration with the same token is rejected in the
unknown-token branch. -/
theorem c3_witness :
    register false [ ("T", { email := "a@b.co", expiresAt := 10000 }) ] 0 "A" "B"
        "1234567890" "a@b.co" "secret" "" "T" =
      (RegisterRes.registered,
        mapDel [ ("T", { email := "a@b.co", expiresAt := 10000 }) ] "T")
    ∧ (register true (mapDel [ ("T", { email := "a@b.co", expiresAt := 10000 }) ] "T") 0
        "A" "B" "1234567890" "a@b.co" "secret" "" "T").1 = RegisterRes.invalidVerifyToken := by
  have h := c3_verify_token_single_use true
    [ ("T", { email := "a@b.co", expiresAt := 10000 }) ] 0 "A" "B" "1234567890" "a@b.co"
    "secret" "" "T" "secret" { email := "a@b.co", expiresAt := 10000 }
    (by decide) (by decide) (by decide) (by decide) (by decide) (by decide) (by decide)
    (by decide) (by decide) (by decide) (by decide) (by decide) (by decide) (by decide)
  exact ⟨h.1.1, h.1.2.2.1⟩

/-- C4 (counterexample): the register route consumes an expired verify token
by answering the collapsed Invalid-verify-token response and does NOT delete
it — the token is still present in the ledger afterwards, contradicting the
claim that every expired consume attempt reports Expired and deletes. -/
theorem c4_counterexample :
    register false [ ("T", { email := "a@b.co", expiresAt := 5 }) ] 10 "A" "B" "1234567890"
        "a@b.co" "secret" "" "T" =
      (RegisterRes.invalidVerifyToken, [ ("T", { email := "a@b.co", expiresAt := 5 }) ])
    ∧ mapGet [ ("T", ({ email := "a@b.co", expiresAt := 5 } : VerifyTokenRec)) ] "T" =
        some { email := "a@b.co", expiresAt := 5 } := by
  decide

/-- C4 (amended): consuming an expired verify token through the
password-reset route reports the distinct expired error and deletes the
token; through the register route it is rejected with the collapsed
Invalid-verify-token response and the token remains in the ledger. -/
theorem c4_amended (dup userExists : Bool) (vstore : TokStore) (now : Int)
    (first_name last_name mobile_number email_address password pincode verify_token
      new_password : String) (tokenRec : VerifyTokenRec)
    (hfn : first_name ≠ "") (hln : last_name ≠ "") (hmobne : mobile_number ≠ "")
    (he : normalizeEmail email_address ≠ "") (hpw : password ≠ "")
    (hmob : isValidMobile10 mobile_number = true)
    (hev : isValidEmail (normalizeEmail email_address) = true)
    (hpc : isValidPincode6OrEmpty pincode = true)
    (htok : verify_token ≠ "")
    (hnp : new_password ≠ "") (hlen : ¬ strLen new_password < 6)
    (hget : mapGet vstore verify_token = some tokenRec)
    (hexp : tokenRec.expiresAt < now) :
    resetPassword userExists vstore now email_address new_password verify_token =
      (ResetRes.tokenExpired, mapDel vstore verify_token)
    ∧ mapGet (mapDel vstore verify_token) verify_token = none
    ∧ register dup vstore now first_name last_name mobile_number email_address password
        pincode verify_token = (RegisterRes.invalidVerifyToken, vstore)
    ∧ mapGet vstore verify_token = some tokenRec := by
  refine ⟨resetPassword_expired_eq userExists vstore now email_address new_password
      verify_token tokenRec he hev hnp hlen htok hget hexp, ?_, ?_, hget⟩
  · rw [mapGet_del]
    simp
  · exact register_tokenStale_eq dup vstore now first_name last_name mobile_number
      email_address password pincode verify_token tokenRec hfn hln hmobne he hpw hmob hev
      hpc htok hget (Or.inl hexp)

/-- C4 amended, evaluated at a concrete expired token. -/
theorem c4_amended_witness :
    resetPassword true [ ("T", { email := "a@b.co", expiresAt := 5 }) ] 10 "a@b.co"
        "secret" "T" =
      (ResetRes.tokenExpired, mapDel [ ("T", { email := "a@b.co", expiresAt := 5 }) ] "T")
    ∧ register false [ ("T", { email := "a@b.co", expiresAt := 5 }) ] 10 "A" "B"
        "1234567890" "a@b.co" "secret" "" "T" =
      (RegisterRes.invalidVerifyToken, [ ("T", { email := "a@b.co", expiresAt := 5 }) ]) := by
  have h := c4_amended false true [ ("T", { email := "a@b.co", expiresAt := 5 }) ] 10
    "A" "B" "1234567890" "a@b.co" "secret" "" "T" "secret"
    { email := "a@b.co", expiresAt := 5 }
    (by decide) (by decide) (by decide) (by decide) (by decide) (by decide) (by decide)
    (by decide) (by decide) (by decide) (by decide) (by decide) (by decide)
  exact ⟨h.1, h.2.2.1⟩

/-- C5: after a challenge is issued at `now1`, a second request inside the
30-second cooldown answers RateLimited and leaves the stored challenge
untouched; outside the cooldown the request overwrites the challenge with a
fresh one whose `attempts` is 0. -/
theorem c5_resend_cooldown (d1 d2 : Bool) (hash : String → String) (store : OtpStore)
    (now1 now2 : Int) (emailRaw otp1 otp2 : String)
    (he : normalizeEmail emailRaw ≠ "") (hev : isValidEmail (normalizeEmail emailRaw) = true)
    (hcool : cooldownActive store (normalizeEmail emailRaw) now1 = false)
    (hpos : 0 < now1)
    (hsoon : now2 - now1 < OTP_RESEND_COOLDOWN_MS) :
    (sendOtp false d1 hash store now1 emailRaw otp1).2 =
      mapSet store (normalizeEmail emailRaw)
        { otpHash := hash otp1, expiresAt := now1 + OTP_TTL_MS, attempts := 0,
          lastSentAt := now1 }
    ∧ sendOtp false d2 hash
        (mapSet store (normalizeEmail emailRaw)
          { otpHash := hash otp1, expiresAt := now1 + OTP_TTL_MS, attempts := 0,
            lastSentAt := now1 }) now2 emailRaw otp2 =
      (SendOtpRes.rateLimited,
        mapSet store (normalizeEmail emailRaw)
          { otpHash := hash otp1, expiresAt := now1 + OTP_TTL_MS, attempts := 0,
            lastSentAt := now1 })
    ∧ (∀ (now3 : Int) (otp3 : String) (d3 : Bool),
        ¬ now3 - now1 < OTP_RESEND_COOLDOWN_MS →
        (sendOtp false d3 hash
          (mapSet store (normalizeEmail emailRaw)
            { otpHash := hash otp1, expiresAt := now1 + OTP_TTL_MS, attempts := 0,
              lastSentAt := now1 }) now3 emailRaw otp3).2 =
          mapSet store (normalizeEmail emailRaw)
            { otpHash := hash otp3, expiresAt := now3 + OTP_TTL_MS, attempts := 0,
              lastSentAt := now3 }) := by
  have hne : now1 ≠ 0 := hpos.ne'
  refine ⟨?_, ?_, ?_⟩
  · simp [sendOtp_issue_eq d1 hash store now1 emailRaw otp1 he hev hcool]
  · have hactive : cooldownActive
        (mapSet store (normalizeEmail emailRaw)
          { otpHash := hash otp1, expiresAt := now1 + OTP_TTL_MS, attempts := 0,
            lastSentAt := now1 }) (normalizeEmail emailRaw) now2 = true := by
      simp [cooldownActive, mapGet_set, hne, hsoon]
    exact sendOtp_rateLimited_eq d2 hash _ now2 emailRaw otp2 he hev hactive
  · intro now3 otp3 d3 hlate
    have hcalm : cooldownActive
        (mapSet store (normalizeEmail emailRaw)
          { otpHash := hash otp1, expiresAt := now1 + OTP_TTL_MS, attempts := 0,
            lastSentAt := now1 }) (normalizeEmail emailRaw) now3 = false := by
      simp [cooldownActive, mapGet_set, hlate]
    have h := sendOtp_issue_eq d3 hash _ now3 emailRaw otp3 he hev hcalm
    rw [mapSet_set] at h
    simp [h]

/-- C5, evaluated at concrete times 1000 and 2000 (inside the cooldown) and
40000 (outside it). -/
theorem c5_resend_cooldown_witness :
    (sendOtp false true hashDemo
      (mapSet [] (normalizeEmail "a@b.co")
        { otpHash := hashDemo "111111", expiresAt := 1000 + OTP_TTL_MS, attempts := 0,
          lastSentAt := 1000 }) 2000 "a@b.co" "333333").1 = SendOtpRes.rateLimited := by
  have h := c5_resend_cooldown true true hashDemo [] 1000 2000 "a@b.co" "111111" "333333"
    (by decide) (by decide) (by decide) (by decide) (by decide)
  rw [h.2.1]

/-- C6: a verification with the correct code on a live, in-budget challenge
succeeds, deletes the challenge and mints the verify token; afterwards the
email has no challenge, so ANY further verification attempt (same or other
code) answers NotFound. -/
theorem c6_correct_code_once (compare : String → String → Bool) (store : OtpStore)
    (vstore : TokStore) (now : Int) (emailRaw otpRaw newToken : String) (chal : OtpRec)
    (he : normalizeEmail emailRaw ≠ "") (hev : isValidEmail (normalizeEmail emailRaw) = true)
    (ho : isOtp6 (jsTrim otpRaw) = true)
    (hget : mapGet store (normalizeEmail emailRaw) = some chal)
    (hexp : ¬ chal.expiresAt < now)
    (hatt : chal.attempts < MAX_OTP_ATTEMPTS)
    (hok : compare (jsTrim otpRaw) chal.otpHash = true) :
    verifyOtp compare store vstore now emailRaw otpRaw newToken =
      (VerifyOtpRes.verified newToken, mapDel store (normalizeEmail emailRaw),
        mapSet vstore newToken
          { email := normalizeEmail emailRaw, expiresAt := now + VERIFY_TOKEN_TTL_MS })
    ∧ mapGet (mapDel store (normalizeEmail emailRaw)) (normalizeEmail emailRaw) = none
    ∧ (∀ (otp2 tok2 : String) (vs2 : TokStore) (n2 : Int),
        isOtp6 (jsTrim otp2) = true →
        verifyOtp compare (mapDel store (normalizeEmail emailRaw)) vs2 n2 emailRaw otp2
          tok2 = (VerifyOtpRes.notFound, mapDel store (normalizeEmail emailRaw), vs2)) := by
  have hgone : mapGet (mapDel store (normalizeEmail emailRaw)) (normalizeEmail emailRaw)
      = none := by
    rw [mapGet_del]
    simp
  refine ⟨verifyOtp_correct_eq compare store vstore now emailRaw otpRaw newToken chal
      he hev ho hget hexp hatt hok, hgone, ?_⟩
  intro otp2 tok2 vs2 n2 ho2
  exact verifyOtp_notFound_eq compare _ vs2 n2 emailRaw otp2 tok2 he hev ho2 hgone

/-- C6, evaluated at a concrete correct-code verification followed by a
repeat attempt with the same code. -/
theorem c6_correct_code_once_witness :
    verifyOtp compareDemo
      [ ("a@b.co",
          { otpHash := "#111111", expiresAt := 600000, attempts := 0, lastSentAt := 1 }) ]
      [] 1000 "a@b.co" "111111" "tok" =
      (VerifyOtpRes.verified "tok",
        mapDel
          [ ("a@b.co",
              { otpHash := "#111111", expiresAt := 600000, attempts := 0, lastSentAt := 1 }) ]
          (normalizeEmail "a@b.co"),
        mapSet [] "tok"
          { email := normalizeEmail "a@b.co", expiresAt := 1000 + VERIFY_TOKEN_TTL_MS })
    ∧ (verifyOtp compareDemo
        (mapDel
          [ ("a@b.co",
              { otpHash := "#111111", expiresAt := 600000, attempts := 0, lastSentAt := 1 }) ]
          (normalizeEmail "a@b.co")) [] 2000 "a@b.co" "111111"
        "tok2").1 = VerifyOtpRes.notFound := by
  have h := c6_correct_code_once compareDemo
    [ ("a@b.co",
        { otpHash := "#111111", expiresAt := 600000, attempts := 0, lastSentAt := 1 }) ]
    [] 1000 "a@b.co" "111111" "tok"
    { otpHash := "#111111", expiresAt := 600000, attempts := 0, lastSentAt := 1 }
    (by decide) (by decide) (by decide) (by decide) (by decide) (by decide) (by decide)
  refine ⟨h.1, ?_⟩
  rw [h.2.2 "111111" "tok2" [] 2000 (by decide)]

/-- C7: a wrong-code verification on a live, in-budget challenge answers
InvalidCode, retains the challenge with `attempts` charged by exactly one
(still within the maximum); moreover, over all `verify-otp` and `send-otp`
calls, a surviving challenge's `attempts` only ever stays, is charged by one
while still under the maximum, or restarts at 0 in a fresh challenge — so it
never exceeds the fixed maximum. -/
theorem c7_wrong_code_charging (compare : String → String → Bool) (store : OtpStore)
    (vstore : TokStore) (now : Int) (emailRaw otpRaw newToken : String) (chal : OtpRec)
    (he : normalizeEmail emailRaw ≠ "") (hev : isValidEmail (normalizeEmail emailRaw) = true)
    (ho : isOtp6 (jsTrim otpRaw) = true)
    (hget : mapGet store (normalizeEmail emailRaw) = some chal)
    (hexp : ¬ chal.expiresAt < now)
    (hatt : chal.attempts < MAX_OTP_ATTEMPTS)
    (hbad : compare (jsTrim otpRaw) chal.otpHash = false) :
    verifyOtp compare store vstore now emailRaw otpRaw newToken =
      (VerifyOtpRes.invalidCode,
        mapSet store (normalizeEmail emailRaw) { chal with attempts := chal.attempts + 1 },
        vstore)
    ∧ mapGet (mapSet store (normalizeEmail emailRaw)
        { chal with attempts := chal.attempts + 1 }) (normalizeEmail emailRaw) =
        some { chal with attempts := chal.attempts + 1 }
    ∧ chal.attempts + 1 ≤ MAX_OTP_ATTEMPTS
    ∧ (∀ (s2 : OtpStore) (vs2 : TokStore) (n2 : Int) (em2 ot2 tk2 q : String) (r2 : OtpRec),
        mapGet (verifyOtp compare s2 vs2 n2 em2 ot2 tk2).2.1 q = some r2 →
        ∃ r1, mapGet s2 q = some r1 ∧
          (r2 = r1 ∨ (r2.attempts = r1.attempts + 1 ∧ r1.attempts < MAX_OTP_ATTEMPTS)))
    ∧ (∀ (reg2 d2 : Bool) (hsh : String → String) (s3 : OtpStore) (n3 : Int)
        (em3 ot3 q3 : String) (r3 : OtpRec),
        mapGet (sendOtp reg2 d2 hsh s3 n3 em3 ot3).2 q3 = some r3 →
        r3.attempts = 0 ∨ mapGet s3 q3 = some r3) := by
  refine ⟨verifyOtp_wrong_eq compare store vstore now emailRaw otpRaw newToken chal
      he hev ho hget hexp hatt hbad, by simp [mapGet_set], hatt, ?_, ?_⟩
  · intro s2 vs2 n2 em2 ot2 tk2 q r2 h
    exact verifyOtp_store_evolution compare s2 vs2 n2 em2 ot2 tk2 q r2 h
  · intro reg2 d2 hsh s3 n3 em3 ot3 q3 r3 h
    exact sendOtp_store_entries reg2 d2 hsh s3 n3 em3 ot3 q3 r3 h

/-- C7, evaluated at a concrete wrong-code verification. -/
theorem c7_wrong_code_charging_witness :
    verifyOtp compareDemo
      [ ("a@b.co",
          { otpHash := "#111111", expiresAt := 600000, attempts := 2, lastSentAt := 1 }) ]
      [] 1000 "a@b.co" "222222" "tok" =
      (VerifyOtpRes.invalidCode,
        mapSet
          [ ("a@b.co",
              { otpHash := "#111111", expiresAt := 600000, attempts := 2, lastSentAt := 1 }) ]
          (normalizeEmail "a@b.co")
          { otpHash := "#111111", expiresAt := 600000, attempts := 3, lastSentAt := 1 },
        []) :=
  (c7_wrong_code_charging compareDemo
    [ ("a@b.co",
        { otpHash := "#111111", expiresAt := 600000, attempts := 2, lastSentAt := 1 }) ]
    [] 1000 "a@b.co" "222222" "tok"
    { otpHash := "#111111", expiresAt := 600000, attempts := 2, lastSentAt := 1 }
    (by decide) (by decide) (by decide) (by decide) (by decide) (by decide) (by decide)).1

/-- C8: over the operations that touch stored credentials — user self
logout, admin force-logout of an admin, admin force-logout of a user, the
password-reset update and the admin profile update — every row's
`token_version` is either left unchanged or incremented by exactly one;
no operation decreases or resets it. -/
theorem c8_token_version_monotone (udb : List (String × Credential))
    (adb : List (Nat × Credential)) (id target email hash : String) (adminId atarget : Nat)
    (newHash : Option String) (newActive : Option Bool) :
    (versionOpt (userLogout udb id) target = versionOpt udb target ∨
      versionOpt (userLogout udb id) target = (versionOpt udb target).map (fun v => v + 1))
    ∧ (versionOpt (adminForceLogout adb adminId) atarget = versionOpt adb atarget ∨
      versionOpt (adminForceLogout adb adminId) atarget =
        (versionOpt adb atarget).map (fun v => v + 1))
    ∧ (versionOpt (adminForceLogoutUser udb id) target = versionOpt udb target ∨
      versionOpt (adminForceLogoutUser udb id) target =
        (versionOpt udb target).map (fun v => v + 1))
    ∧ versionOpt (resetPasswordHash udb email hash) target = versionOpt udb target
    ∧ versionOpt (adminUpdate adb adminId newHash newActive) atarget =
        versionOpt adb atarget := by
  refine ⟨?_, ?_, ?_, ?_, ?_⟩
  · exact versionOpt_bump udb id target
  · exact versionOpt_bump adb adminId atarget
  · exact versionOpt_bump udb id target
  · exact versionOpt_update_keep udb email target _ (fun c => rfl)
  · exact versionOpt_update_keep adb adminId atarget _ (fun c => rfl)

/-- C9: the success response of `send-otp` is only ever produced when the
notification dispatch completed successfully, and with a failing dispatcher
the endpoint surfaces an error response instead of claiming the code was
sent (the freshly recorded challenge notwithstanding). -/
theorem c9_dispatch_surfaced (registered dispatchOk : Bool) (hash : String → String)
    (store : OtpStore) (now : Int) (emailRaw otp : String) :
    ((sendOtp registered dispatchOk hash store now emailRaw otp).1 = SendOtpRes.otpSent →
      dispatchOk = true)
    ∧ (dispatchOk = false →
      (sendOtp registered dispatchOk hash store now emailRaw otp).1 ≠ SendOtpRes.otpSent)
    ∧ (dispatchOk = false → registered = false →
      normalizeEmail emailRaw ≠ "" → isValidEmail (normalizeEmail emailRaw) = true →
      cooldownActive store (normalizeEmail emailRaw) now = false →
      sendOtp registered dispatchOk hash store now emailRaw otp =
        (SendOtpRes.serverError,
          mapSet store (normalizeEmail emailRaw)
            { otpHash := hash otp, expiresAt := now + OTP_TTL_MS, attempts := 0,
              lastSentAt := now })) := by
  have key : ∀ (r : Bool),
      (sendOtp r false hash store now emailRaw otp).1 ≠ SendOtpRes.otpSent := by
    intro r
    by_cases hv : normalizeEmail emailRaw = "" ∨ isValidEmail (normalizeEmail emailRaw) = false
    · simp [sendOtp_badEmail_eq r false hash store now emailRaw otp hv]
    · push_neg at hv
      obtain ⟨he, hev2⟩ := hv
      have hev : isValidEmail (normalizeEmail emailRaw) = true := by
        revert hev2
        cases isValidEmail (normalizeEmail emailRaw) <;> simp
      cases r with
      | true => simp [sendOtp_registered_eq false hash store now emailRaw otp he hev]
      | false =>
        by_cases hcool : cooldownActive store (normalizeEmail emailRaw) now = true
        · simp [sendOtp_rateLimited_eq false hash store now emailRaw otp he hev hcool]
        · have hcool2 : cooldownActive store (normalizeEmail emailRaw) now = false := by
            revert hcool
            cases cooldownActive store (normalizeEmail emailRaw) now <;> simp
          simp [sendOtp_issue_eq false hash store now emailRaw otp he hev hcool2]
  refine ⟨?_, ?_, ?_⟩
  · intro h
    cases dispatchOk with
    | true => rfl
    | false => exact absurd h (key registered)
  · intro hd
    subst hd
    exact key registered
  · intro hd hr he hev hcool
    subst hd
    subst hr
    simp [sendOtp_issue_eq false hash store now emailRaw otp he hev hcool]

/-- C9, evaluated with a failing dispatcher at concrete inputs: the endpoint
answers the surfaced server error, never the success message. -/
theorem c9_dispatch_surfaced_witness :
    sendOtp false false hashDemo [] 1 "a@b.co" "111111" =
      (SendOtpRes.serverError,
        mapSet [] (normalizeEmail "a@b.co")
          { otpHash := hashDemo "111111", expiresAt := 1 + OTP_TTL_MS, attempts := 0,
            lastSentAt := 1 }) :=
  (c9_dispatch_surfaced false false hashDemo [] 1 "a@b.co" "111111").2.2 rfl rfl
    (by decide) (by decide) (by decide)

/-- C10: when the stored admin `password_hash` does not look like a bcrypt
hash (no `$2` marker), admin login compares the supplied password to the
stored value by plain string equality, and — the admin being allowed and
active — succeeds with the signed admin token exactly when they are equal. -/
theorem c10_plain_password_login (bcryptCompare : String → String → Bool) (admin : AdminRow)
    (usernameRaw passwordRaw : String)
    (he : normEmail usernameRaw ≠ "") (hpw : passwordRaw ≠ "")
    (hallow : (ALLOWED_ADMINS.contains (normEmail usernameRaw)) = true)
    (hactive : admin.is_active = true)
    (hplain : isBcryptHash admin.password_hash = false) :
    adminLogin bcryptCompare (some admin) usernameRaw passwordRaw =
      (if passwordRaw == admin.password_hash then
        AdminLoginRes.success
          { admin_id := admin.admin_id, email := normEmail admin.email_username,
            role := "admin", token_version := admin.token_version }
      else AdminLoginRes.invalidPassword)
    ∧ ((∃ c, adminLogin bcryptCompare (some admin) usernameRaw passwordRaw =
          AdminLoginRes.success c) ↔ passwordRaw = admin.password_hash) := by
  have hmem : normEmail usernameRaw ∈ ALLOWED_ADMINS := by
    simpa using hallow
  have main : adminLogin bcryptCompare (some admin) usernameRaw passwordRaw =
      (if passwordRaw == admin.password_hash then
        AdminLoginRes.success
          { admin_id := admin.admin_id, email := normEmail admin.email_username,
            role := "admin", token_version := admin.token_version }
      else AdminLoginRes.invalidPassword) := by
    cases hb : passwordRaw == admin.password_hash with
    | true => simp [adminLogin, he, hpw, hallow, hmem, hactive, hplain, hb]
    | false => simp [adminLogin, he, hpw, hallow, hmem, hactive, hplain, hb]
  refine ⟨main, ?_⟩
  rw [main]
  by_cases hp : passwordRaw = admin.password_hash
  · simp [hp]
  · have hb : (passwordRaw == admin.password_hash) = false := beq_eq_false_iff_ne.mpr hp
    simp [hb, hp]

/-- C10, evaluated at a concrete allowed, active admin whose stored value is
the plain string `plainpw`: login succeeds with that exact password. -/
theorem c10_plain_password_login_witness :
    adminLogin compareDemo
      (some
        { admin_id := 1, email_username := "ajaykedar3790@gmail.com",
          password_hash := "plainpw", is_active := true, token_version := 3 })
      "ajaykedar3790@gmail.com" "plainpw" =
      AdminLoginRes.success
        { admin_id := 1, email := normEmail "ajaykedar3790@gmail.com", role := "admin",
          token_version := 3 } := by
  have h := (c10_plain_password_login compareDemo
    { admin_id := 1, email_username := "ajaykedar3790@gmail.com",
      password_hash := "plainpw", is_active := true, token_version := 3 }
    "ajaykedar3790@gmail.com" "plainpw"
    (by decide) (by decide) (by decide) rfl (by decide)).1
  rw [h]
  decide

end ExpressRandom
